import Mathlib

/-!
Verification of the dependency-mining script `src/script/execute.py`.

The development embeds the script's classification engine and closure-walk
algorithm shallowly:

* The work of `_handle_import` / `_handle_import_from` / `parse_imports`
  (lines 252-383 of `execute.py`) is embedded over an abstract classification
  environment `ClassEnv` that supplies the three boolean classifiers
  (`is_standard_lib`, `is_first_party`, `is_third_party` at the call sites)
  and the source tree (module name to file content, the path arithmetic of
  line 428 being treated as glue).
* The closure walk of `gather_dependencies` (lines 424-438) is embedded twice:
  once as a nondeterministic step relation `Step` (Python's `set.pop` removes
  an arbitrary element), and once as a deterministic executable worklist
  (`walkExecL`, `gatherUnitsL`) that linearises the same set semantics with a
  fixed pop order, used to evaluate concrete scenarios including the error
  paths of the script.
* The bodies of the classifier functions `is_standard_lib`, `is_third_party`,
  `is_namespace_package`, `is_first_party` and `get_package_paths`
  (lines 67-249) are embedded over a `PyEnv` record that models the
  interpreter's import machinery (`importlib.import_module`,
  `importlib.util.find_spec`, `os.__file__`); exceptions that the Python code
  can raise are modelled with `Except`.
-/

deriving instance DecidableEq for Except

namespace DepMiner

/-- A top-level statement of a source file, as inspected by `parse_imports`
(lines 371-381).  `imp` is `ast.Import` with its alias names, `impFrom` is
`ast.ImportFrom` with its `level`, optional `module` and alias names
(`from . import x` has `module = none`), `other` is any other statement. -/
inductive Stmt (α : Type) where
  | imp (names : List α)
  | impFrom (level : Nat) (module : Option α) (names : List α)
  | other
deriving DecidableEq

/-- A Python source file as seen by `ast.parse` (line 366): either it parses
into a list of top-level statements, or it is syntactically invalid and
parsing raises `SyntaxError`. -/
inductive PyFile (α : Type) where
  | valid (stmts : List (Stmt α))
  | invalid
deriving DecidableEq

end DepMiner

namespace DepMiner

/-- Errors that escape the walk in `gather_dependencies`: `fileNotFound` is
the `FileNotFoundError` raised by `open` at line 365 when the derived module
path does not exist, `parseError` is the `SyntaxError` raised by `ast.parse`
at line 366.  The script defines no other error (in particular no
`MissingDependencyError` exists anywhere in the code). -/
inductive Err (α : Type) where
  | fileNotFound (m : α)
  | parseError (m : α)
deriving DecidableEq

/-- The classification context threaded through `parse_imports`:
the three classifiers (applied to a module name they answer the
`is_standard_lib` / `is_first_party` / `is_third_party` tests of lines
286-290 and 326-330) and the project source tree (`srcFile m` is the content
of the file at `os.path.join(current_dir, "src", m.replace('.', os.sep) + ".py")`,
line 428, or `none` when that path does not exist). -/
structure ClassEnv (α : Type) where
  isStd : α → Bool
  isFP : α → Bool
  isTP : α → Bool
  srcFile : α → Option (PyFile α)

variable {α : Type} [DecidableEq α]

/-- `_handle_import` (lines 296-333): classify one plain-import alias name
through the first-match-wins `if/elif` chain and return the
`(imports, requirements)` contribution. -/
def _handle_import (env : ClassEnv α) (alias_name : α) : Finset α × Finset α :=
  if env.isStd alias_name then (∅, ∅)
  else if env.isFP alias_name then ({alias_name}, ∅)
  else if env.isTP alias_name then (∅, {alias_name})
  else (∅, ∅)

/-- `_handle_import_from` (lines 252-293): the `module` argument is
`n.module` of the `ast.ImportFrom` node; `if not module: return` at
line 283 drops the empty/`None` module of a `from . import x` form,
otherwise the module name itself goes through the same chain. -/
def _handle_import_from (env : ClassEnv α) (module : Option α) : Finset α × Finset α :=
  match module with
  | none => (∅, ∅)
  | some m => _handle_import env m

/-- The `for alias in n.names` loop of lines 378-381: each dotted alias of a
plain `import` statement is classified independently and the contributions
are unioned. -/
def handleAliases (env : ClassEnv α) : List α → Finset α × Finset α
  | [] => (∅, ∅)
  | a :: rest =>
    let p := _handle_import env a
    let q := handleAliases env rest
    (p.1 ∪ q.1, p.2 ∪ q.2)

/-- The statement loop of `parse_imports` (lines 371-381): walk the direct
children of the module node, dispatch `ImportFrom` nodes on their `module`
field only (the `level` and alias names are never consulted) and `Import`
nodes on each alias, accumulating the two sets with `update`. -/
def parseStmts (env : ClassEnv α) : List (Stmt α) → Finset α × Finset α
  | [] => (∅, ∅)
  | s :: rest =>
    let acc := parseStmts env rest
    match s with
    | .impFrom _ module _ =>
      let p := _handle_import_from env module
      (acc.1 ∪ p.1, acc.2 ∪ p.2)
    | .imp names =>
      let p := handleAliases env names
      (acc.1 ∪ p.1, acc.2 ∪ p.2)
    | .other => acc

/-- `parse_imports` applied to an opened file (lines 365-383): an invalid
text raises `SyntaxError` (modelled as `Err.parseError` tagged with the
name used to locate the file), a valid one yields the two accumulated sets. -/
def parse_imports (env : ClassEnv α) (name : α) (f : PyFile α) :
    Except (Err α) (Finset α × Finset α) :=
  match f with
  | .invalid => .error (.parseError name)
  | .valid stmts => .ok (parseStmts env stmts)

/-- `parse_imports` applied to a queued module name `m` during the closure
walk (lines 428-434): derive the source path from `m`, `open` it
(`FileNotFoundError` when absent, line 365) and parse it. -/
def parseModule (env : ClassEnv α) (m : α) : Except (Err α) (Finset α × Finset α) :=
  match env.srcFile m with
  | none => .error (.fileNotFound m)
  | some f => parse_imports env m f

/-- The per-unit mutable state of `gather_dependencies`: the accumulated
`imports` set, the accumulated `requirements` set, and the work `queue`
(a Python set, line 425). -/
structure WSt (α : Type) where
  imports : Finset α
  requirements : Finset α
  queue : Finset α
deriving DecidableEq

/-- One iteration of the `while queue` loop (lines 426-438): pop an
arbitrary member `m` of the queue, parse its module file successfully into
`(i, r)`, then `imports |= i`, `requirements |= r`, `queue |= i` (after the
pop already removed `m`).  Note the code adds all of `i` back to the queue
with no check against `imports`. -/
def Step (env : ClassEnv α) (s t : WSt α) : Prop :=
  ∃ m i r, m ∈ s.queue ∧ parseModule env m = .ok (i, r) ∧
    t = ⟨s.imports ∪ i, s.requirements ∪ r, s.queue.erase m ∪ i⟩

/-- Any number of loop iterations. -/
def Reaches (env : ClassEnv α) : WSt α → WSt α → Prop :=
  Relation.ReflTransGen (Step env)

/-- The seeding of the walk from the entry file's statements
(lines 418-425): `imports` and `requirements` start as the entry file's two
sets and the queue is a copy of the entry's first-party imports. -/
def seed (env : ClassEnv α) (entryStmts : List (Stmt α)) : WSt α :=
  ⟨(parseStmts env entryStmts).1, (parseStmts env entryStmts).2,
    (parseStmts env entryStmts).1⟩

/-!
Executable refinement of the same loop, used to evaluate the script on
concrete scenarios (in particular the error paths).  Sets are carried as
lists (`List.union` gives the set semantics of `|=`); the queue is a list
popped from the head, which linearises Python's arbitrary `set.pop` with one
fixed pop order.
-/

/-- List-valued version of the `_handle_import` chain. -/
def handleImportL (env : ClassEnv α) (alias_name : α) : List α × List α :=
  if env.isStd alias_name then ([], [])
  else if env.isFP alias_name then ([alias_name], [])
  else if env.isTP alias_name then ([], [alias_name])
  else ([], [])

/-- List-valued version of the `_handle_import_from` wrapper. -/
def handleImportFromL (env : ClassEnv α) (module : Option α) : List α × List α :=
  match module with
  | none => ([], [])
  | some m => handleImportL env m

/-- List-valued version of the statement loop of `parse_imports`. -/
def parseStmtsL (env : ClassEnv α) : List (Stmt α) → List α × List α
  | [] => ([], [])
  | s :: rest =>
    let acc := parseStmtsL env rest
    match s with
    | .impFrom _ module _ =>
      let p := handleImportFromL env module
      (acc.1 ∪ p.1, acc.2 ∪ p.2)
    | .imp names =>
      let p := (names.map (handleImportL env)).foldr
        (fun x y => (x.1 ∪ y.1, x.2 ∪ y.2)) ([], [])
      (acc.1 ∪ p.1, acc.2 ∪ p.2)
    | .other => acc

/-- List-valued `parse_imports` on an opened file. -/
def parseImportsL (env : ClassEnv α) (name : α) (f : PyFile α) :
    Except (Err α) (List α × List α) :=
  match f with
  | .invalid => .error (.parseError name)
  | .valid stmts => .ok (parseStmtsL env stmts)

/-- List-valued `parse_imports` on a queued module name. -/
def parseModuleL (env : ClassEnv α) (m : α) : Except (Err α) (List α × List α) :=
  match env.srcFile m with
  | none => .error (.fileNotFound m)
  | some f => parseImportsL env m f

/-- Executable `while queue` loop of lines 426-438, popping from the head of
the worklist.  `none` means the fuel ran out before the queue emptied (the
Python loop can genuinely run forever, see claim C1); `some (.error e)`
means an exception escaped the loop. -/
def walkExecL (env : ClassEnv α) :
    Nat → List α → List α → List α → Option (Except (Err α) (List α × List α))
  | _, imports, requirements, [] => some (.ok (imports, requirements))
  | 0, _, _, _ :: _ => none
  | fuel + 1, imports, requirements, m :: queue =>
    match parseModuleL env m with
    | .error e => some (.error e)
    | .ok (i, r) => walkExecL env fuel (imports ∪ i) (requirements ∪ r) (queue ∪ i)

/-- The per-unit body of `gather_dependencies` (lines 416-438): parse the
unit's entry file, seed the two sets and the queue with its results, then
run the closure walk. -/
def processUnit (env : ClassEnv α) (fuel : Nat) (entryName : α) (entry : PyFile α) :
    Option (Except (Err α) (List α × List α)) :=
  match parseImportsL env entryName entry with
  | .error e => some (.error e)
  | .ok (i, r) => walkExecL env fuel i r i

/-- The unit loop of `gather_dependencies` (lines 410-444): each unit is a
directory name paired with its entry file when one exists (`os.path.exists`,
line 416; units without the entry file are skipped).  The loop body has no
exception handler, so the first escaping exception aborts the whole run: the
results of units already completed stand, the failing unit and every later
unit produce nothing. -/
def gatherUnitsL (env : ClassEnv α) (fuel : Nat) :
    List (α × Option (PyFile α)) →
      Option (List (α × List α × List α) × Option (Err α))
  | [] => some ([], none)
  | (_, none) :: rest => gatherUnitsL env fuel rest
  | (u, some f) :: rest =>
    match processUnit env fuel u f with
    | none => none
    | some (.error e) => some ([], some e)
    | some (.ok (i, r)) =>
      match gatherUnitsL env fuel rest with
      | none => none
      | some (results, e) => some ((u, i, r) :: results, e)

end DepMiner

namespace DepMiner

/-!
Embedding of the classifier bodies (lines 67-249 of `execute.py`).  Module
names and paths are strings; the interpreter's import machinery is a `PyEnv`
record.  String operations mirror the Python ones over the character list.
-/

/-- `s.startswith(pre)` on Python strings. -/
def pyStartsWith (s pre : String) : Bool :=
  pre.toList.isPrefixOf s.toList

/-- `s.endswith(suf)` on Python strings. -/
def pyEndsWith (s suf : String) : Bool :=
  suf.toList.isSuffixOf s.toList

/-- Contiguous-sublist containment on character lists. -/
def listInfix (pat : List Char) : List Char → Bool
  | [] => pat.isEmpty
  | c :: rest => pat.isPrefixOf (c :: rest) || listInfix pat rest

/-- `pat in s` on Python strings (contiguous substring containment). -/
def substrIn (pat s : String) : Bool :=
  listInfix pat.toList s.toList

/-- `s.split(pat)[0]` for a nonempty `pat`: the characters before the first
occurrence of `pat`, or all of `s` when `pat` does not occur. -/
def splitHead (pat : List Char) : List Char → List Char
  | [] => []
  | c :: rest =>
    if pat.isPrefixOf (c :: rest) then [] else c :: splitHead pat rest

/-- `p[:p.rfind('/') + 1]` — the head part kept by `posixpath.dirname`. -/
def headPart (cs : List Char) : List Char :=
  (cs.reverse.dropWhile (fun c => c ≠ '/')).reverse

/-- `os.path.dirname` (posix): keep everything up to the last separator,
then strip trailing separators unless the head is all separators. -/
def dirnameStr (s : String) : String :=
  let head := headPart s.toList
  if head = [] ∨ head.all (fun c => c = '/') then String.mk head
  else String.mk ((head.reverse.dropWhile (fun c => c = '/')).reverse)

/-- The exceptions the classifier bodies can raise past their handlers:
`attributeError` is the `AttributeError` from accessing a missing
`__file__` attribute (or calling `.startswith` on `None`). -/
inductive PyErr where
  | attributeError
deriving DecidableEq

/-- A loaded Python module object as the classifiers inspect it:
`file` is the `__file__` attribute (`none` when the attribute is absent,
as for namespace packages), `path` is the `__path__` list of search roots
(`none` when absent, i.e. for non-packages), `specOrigin` is
`__spec__.origin` when a `__spec__` with a string origin is present. -/
structure PyModule where
  file : Option String
  path : Option (List String)
  specOrigin : Option String
deriving DecidableEq

/-- The interpreter state consumed by the classifiers:
`importMod name` is `importlib.import_module(name)` (`none` = `ImportError`),
`findSpec name` is `importlib.util.find_spec(name)` (`none` = no spec,
`some o` = a spec whose `origin` is `o`), and `osFile` is `os.__file__`. -/
structure PyEnv where
  importMod : String → Option PyModule
  findSpec : String → Option (Option String)
  osFile : String

/-- `is_standard_lib` (lines 67-96): membership in the builtin-name set,
else find the spec and test whether its origin path starts with the
directory containing the interpreter's `os` module. -/
def is_standard_lib (env : PyEnv) (std_lib_modules : List String)
    (module_name : String) : Bool :=
  if module_name ∈ std_lib_modules then true
  else
    match env.findSpec module_name with
    | none => false
    | some none => false
    | some (some module_path) => pyStartsWith module_path (dirnameStr env.osFile)

/-- `is_third_party` (lines 99-119): import the module (an `ImportError` is
caught and yields `false`), then test `module.__file__.startswith(tuple(package_paths))`.
When the module has no `__file__` attribute (e.g. a namespace package) the
attribute access raises `AttributeError`, which the `except ImportError`
handler does not catch. -/
def is_third_party (env : PyEnv) (package_paths : List String)
    (module_name : String) : Except PyErr Bool :=
  match env.importMod module_name with
  | none => .ok false
  | some module =>
    match module.file with
    | none => .error .attributeError
    | some f => .ok (package_paths.any (fun p => pyStartsWith f p))

/-- `is_namespace_package` (lines 122-142): import the module (`ImportError`
caught, yields `false`) and test `hasattr(module, "__path__") and not
hasattr(module, "__file__")`. -/
def is_namespace_package (env : PyEnv) (module_name : String) : Bool :=
  match env.importMod module_name with
  | none => false
  | some module => module.path.isSome && module.file.isNone

/-- `is_first_party` (lines 145-215): import the module (`ImportError`
caught, yields `false`); `getattr(module, "__file__", None)` that is `None`
returns `false` immediately; then the zip, compiled-extension, namespace,
frozen, virtual-environment and egg-link special cases in source order;
finally `module_file.startswith(current_dir)`. -/
def is_first_party (env : PyEnv) (module_name current_dir : String) : Bool :=
  match env.importMod module_name with
  | none => false
  | some module =>
    match module.file with
    | none => false
    | some module_file =>
      if substrIn ".zip" module_file then
        pyStartsWith (String.mk (splitHead ".zip".toList module_file.toList) ++ ".zip")
          current_dir
      else if pyEndsWith module_file ".pyd" || pyEndsWith module_file ".so" then
        pyStartsWith module_file current_dir
      else if is_namespace_package env module_name then
        (module.path.getD []).any (fun p => pyStartsWith p current_dir)
      else if module.specOrigin == some "frozen" then false
      else if [".venv", "venv", "virtualenv", "poetry/virtualenvs", "conda",
          "env", "envs", ".tox"].any (fun pat => substrIn pat module_file) then false
      else if substrIn ".egg-link" module_file then false
      else pyStartsWith module_file current_dir

/-- `get_package_paths` (lines 218-249): keep the `sys.path` entries that
contain one of the five installation-directory markers. -/
def get_package_paths (sys_path : List String) : List String :=
  sys_path.filter (fun path =>
    ["site-packages", "dist-packages", ".local/lib/python",
      "AppData/Local/Programs/Python", "Library/Python"].any
      (fun pat => substrIn pat path))

/-- The classification outcome of the `if/elif` chain of `_handle_import`
(lines 326-331) when composed from the real classifiers. -/
inductive PyClass where
  | std
  | fp
  | tp
  | unknown
deriving DecidableEq

/-- The first-match-wins chain of `_handle_import` composed from the real
classifier bodies: standard-library first, then first-party, then
third-party; a name matching none of the three is `Unknown` and contributes
to neither set; an exception from `is_third_party` propagates. -/
def classifyName (env : PyEnv) (std_lib_modules package_paths : List String)
    (current_dir module_name : String) : Except PyErr PyClass :=
  if is_standard_lib env std_lib_modules module_name then .ok .std
  else if is_first_party env module_name current_dir then .ok .fp
  else
    match is_third_party env package_paths module_name with
    | .error e => .error e
    | .ok true => .ok .tp
    | .ok false => .ok .unknown

end DepMiner

namespace DepMiner

/-!
The canonical value of the walk.  `fpOf`/`tpOf` are the two sets a module's
file contributes when it parses; `Edge` is the first-party dependency graph
the queue explores; `FI`/`FR` read off, from any intermediate state, the
final value of the two sets: what is already accumulated plus everything
contributed by modules still reachable from the queue.  `Step` preserves
`FI`/`FR`, which makes the final sets independent of the pop order.
-/

variable {α : Type} [DecidableEq α]

/-- First-party contribution of module `m`'s source file (empty when the
file is missing or invalid — no terminating run pops such a module). -/
def fpOf (env : ClassEnv α) (m : α) : Finset α :=
  match parseModule env m with
  | .ok p => p.1
  | .error _ => ∅

/-- Third-party contribution of module `m`'s source file. -/
def tpOf (env : ClassEnv α) (m : α) : Finset α :=
  match parseModule env m with
  | .ok p => p.2
  | .error _ => ∅

/-- `m` directly imports first-party module `n`. -/
def Edge (env : ClassEnv α) (m n : α) : Prop :=
  n ∈ fpOf env m

/-- `k` is reachable from some member of the queue `Q` along the
first-party dependency edges. -/
def ReachFrom (env : ClassEnv α) (Q : Finset α) (k : α) : Prop :=
  ∃ q ∈ Q, Relation.ReflTransGen (Edge env) q k

/-- The final value of `imports` as read from state `s`. -/
def FI (env : ClassEnv α) (s : WSt α) : Set α :=
  ↑s.imports ∪ {n | ∃ k, ReachFrom env s.queue k ∧ n ∈ fpOf env k}

/-- The final value of `requirements` as read from state `s`. -/
def FR (env : ClassEnv α) (s : WSt α) : Set α :=
  ↑s.requirements ∪ {n | ∃ k, ReachFrom env s.queue k ∧ n ∈ tpOf env k}

end DepMiner

namespace DepMiner

/-!
Concrete scenarios.  Module names are strings; each `ClassEnv` fixes the
classification answers and the source tree of one scenario, and each `PyEnv`
fixes the interpreter state the classifier bodies inspect.
-/

/-- Cycle scenario for C1: first-party modules `a` and `b`, where `a.py`
is `import b` and `b.py` is `import a`. -/
def envC1 : ClassEnv String where
  isStd := fun _ => false
  isFP := fun n => n == "a" || n == "b"
  isTP := fun _ => false
  srcFile := fun n =>
    if n = "a" then some (.valid [.imp ["b"]])
    else if n = "b" then some (.valid [.imp ["a"]])
    else none

/-- Entry file of the cycle scenario: `import a`. -/
def c1entry : List (Stmt String) := [.imp ["a"]]

/-- The seeded state of the cycle scenario. -/
def c1s0 : WSt String := ⟨{"a"}, ∅, {"a"}⟩

/-- The cycle scenario's state after popping `a`. -/
def c1s1 : WSt String := ⟨{"a", "b"}, ∅, {"b"}⟩

/-- The cycle scenario's state after popping `a` then `b`: `a` is back on
the queue although it is already in `imports`. -/
def c1s2 : WSt String := ⟨{"a", "b"}, ∅, {"a"}⟩

/-- Spec scenario for C3: entry imports `os` (standard), `requests`
(third-party) and `utils.helper` (first-party), whose file imports `json`
(standard) and `boto3` (third-party). -/
def envC3 : ClassEnv String where
  isStd := fun n => n == "os" || n == "json"
  isFP := fun n => n == "utils.helper"
  isTP := fun n => n == "requests" || n == "boto3"
  srcFile := fun n =>
    if n = "utils.helper" then some (.valid [.imp ["json"], .imp ["boto3"]])
    else none

/-- Entry statements of the C3 scenario. -/
def c3entry : List (Stmt String) :=
  [.imp ["os"], .imp ["requests"], .imp ["utils.helper"]]

/-- The seeded state of the C3 scenario. -/
def c3s0 : WSt String := ⟨{"utils.helper"}, {"requests"}, {"utils.helper"}⟩

/-- The terminal state of the C3 scenario. -/
def c3s1 : WSt String := ⟨{"utils.helper"}, {"requests", "boto3"}, ∅⟩

/-- Missing-file scenario for C5: `m` is classified first-party but no
`src/m.py` exists. -/
def envC5 : ClassEnv String where
  isStd := fun _ => false
  isFP := fun n => n == "m"
  isTP := fun _ => false
  srcFile := fun _ => none

/-- Entry file of the C5 scenario: `import m`. -/
def c5entry : PyFile String := .valid [.imp ["m"]]

/-- Unit listing of the C5 scenario: a healthy unit first, then the unit
whose walk hits the missing file, then another healthy unit. -/
def c5units : List (String × Option (PyFile String)) :=
  [("ok1", some (.valid [])), ("lam", some c5entry), ("later", some (.valid []))]

/-- Parse-failure scenario for C6: the first unit's entry file is
syntactically invalid, the second is healthy. -/
def envC6 : ClassEnv String where
  isStd := fun _ => false
  isFP := fun _ => false
  isTP := fun _ => false
  srcFile := fun _ => none

/-- Unit listing of the C6 scenario. -/
def c6units : List (String × Option (PyFile String)) :=
  [("bad", some .invalid), ("good", some (.valid []))]

/-- Interpreter state with a namespace package `nspkg`: importable, has
`__path__ = ["/proj/nspkg"]` (a root under the project directory `/proj`)
and no `__file__` attribute. -/
def envNS : PyEnv where
  importMod := fun n =>
    if n = "nspkg" then some ⟨none, some ["/proj/nspkg"], none⟩ else none
  findSpec := fun _ => none
  osFile := "/usr/lib/python3.11/os.py"

/-- The installation directories used in the level-1 scenarios. -/
def sitePkgPaths : List String := ["/usr/lib/python3.11/site-packages"]

/-- Interpreter state for C10: `os` lives at `/usr/lib/python3.11/os.py`
and the spec of `requests` resolves into `site-packages`, which sits inside
the directory containing the `os` module. -/
def env10 : PyEnv where
  importMod := fun _ => none
  findSpec := fun n =>
    if n = "requests" then
      some (some "/usr/lib/python3.11/site-packages/requests/start.py")
    else none
  osFile := "/usr/lib/python3.11/os.py"

/-- Environment for C8: the project happens to contain a first-party
top-level module named `sub`. -/
def envC8 : ClassEnv String where
  isStd := fun _ => false
  isFP := fun n => n == "sub"
  isTP := fun _ => false
  srcFile := fun _ => none

end DepMiner


namespace DepMiner

/-!
Theorems.  Helper lemmas come first, then one theorem per claim (with its
witness or counterexample).
-/

variable {α : Type} [DecidableEq α]

/-- A successful `parse_imports` on a queued module exposes the file's
statement list. -/
lemma parseModule_ok {env : ClassEnv α} {m : α} {i r : Finset α}
    (h : parseModule env m = .ok (i, r)) :
    ∃ ss, env.srcFile m = some (.valid ss) ∧ parseStmts env ss = (i, r) := by
  unfold parseModule at h
  cases hs : env.srcFile m with
  | none => rw [hs] at h; exact absurd h (by simp)
  | some f =>
    rw [hs] at h
    cases f with
    | invalid => exact absurd h (by simp [parse_imports])
    | valid ss => exact ⟨ss, rfl, by simpa [parse_imports] using h⟩

/-- Reading off the first-party contribution from a successful parse. -/
lemma fpOf_eq {env : ClassEnv α} {m : α} {i r : Finset α}
    (h : parseModule env m = .ok (i, r)) : fpOf env m = i := by
  unfold fpOf; rw [h]

/-- Reading off the third-party contribution from a successful parse. -/
lemma tpOf_eq {env : ClassEnv α} {m : α} {i r : Finset α}
    (h : parseModule env m = .ok (i, r)) : tpOf env m = r := by
  unfold tpOf; rw [h]

/-- Anything reachable from the queue after one pop of `m` was already
reachable from the queue before the pop. -/
lemma reachFrom_of_step {env : ClassEnv α} {Q : Finset α} {m k : α}
    (hm : m ∈ Q) (hk : ReachFrom env (Q.erase m ∪ fpOf env m) k) :
    ReachFrom env Q k := by
  obtain ⟨q, hq, hpath⟩ := hk
  rcases Finset.mem_union.1 hq with hq | hq
  · exact ⟨q, Finset.mem_of_mem_erase hq, hpath⟩
  · exact ⟨m, hm, Relation.ReflTransGen.head hq hpath⟩

/-- Anything reachable from the queue before popping `m` is either `m`
itself or still reachable after the pop. -/
lemma reachFrom_split {env : ClassEnv α} {Q : Finset α} (m : α) {k : α}
    (hk : ReachFrom env Q k) :
    k = m ∨ ReachFrom env (Q.erase m ∪ fpOf env m) k := by
  obtain ⟨q, hq, hpath⟩ := hk
  by_cases hqm : q = m
  · subst hqm
    rcases Relation.ReflTransGen.cases_head hpath with heq | ⟨c, hc, hpath'⟩
    · exact Or.inl heq.symm
    · exact Or.inr ⟨c, Finset.mem_union_right _ hc, hpath'⟩
  · exact Or.inr ⟨q, Finset.mem_union_left _ (Finset.mem_erase.2 ⟨hqm, hq⟩), hpath⟩

/-- One loop iteration preserves the read-off final values of both sets. -/
lemma FI_FR_step {env : ClassEnv α} {s t : WSt α} (h : Step env s t) :
    FI env t = FI env s ∧ FR env t = FR env s := by
  obtain ⟨m, i, r, hm, hp, rfl⟩ := h
  have hfp : fpOf env m = i := fpOf_eq hp
  have htp : tpOf env m = r := tpOf_eq hp
  constructor
  · ext n
    simp only [FI, Set.mem_union, Set.mem_setOf_eq, Finset.coe_union,
      Set.mem_setOf_eq, Finset.mem_coe, Finset.mem_union]
    constructor
    · rintro ((hn | hn) | ⟨k, hk, hnk⟩)
      · exact Or.inl hn
      · exact Or.inr ⟨m, ⟨m, hm, Relation.ReflTransGen.refl⟩, by rw [hfp]; exact hn⟩
      · rw [← hfp] at hk
        exact Or.inr ⟨k, reachFrom_of_step hm hk, hnk⟩
    · rintro (hn | ⟨k, hk, hnk⟩)
      · exact Or.inl (Or.inl hn)
      · rcases reachFrom_split m hk with rfl | hk'
        · exact Or.inl (Or.inr (by rw [← hfp]; exact hnk))
        · rw [hfp] at hk'
          exact Or.inr ⟨k, hk', hnk⟩
  · ext n
    simp only [FR, Set.mem_union, Set.mem_setOf_eq, Finset.coe_union,
      Set.mem_setOf_eq, Finset.mem_coe, Finset.mem_union]
    constructor
    · rintro ((hn | hn) | ⟨k, hk, hnk⟩)
      · exact Or.inl hn
      · exact Or.inr ⟨m, ⟨m, hm, Relation.ReflTransGen.refl⟩, by rw [htp]; exact hn⟩
      · rw [← hfp] at hk
        exact Or.inr ⟨k, reachFrom_of_step hm hk, hnk⟩
    · rintro (hn | ⟨k, hk, hnk⟩)
      · exact Or.inl (Or.inl hn)
      · rcases reachFrom_split m hk with rfl | hk'
        · exact Or.inl (Or.inr (by rw [← htp]; exact hnk))
        · rw [hfp] at hk'
          exact Or.inr ⟨k, hk', hnk⟩

/-- Any number of iterations preserves the read-off final values. -/
lemma FI_FR_reaches {env : ClassEnv α} {s t : WSt α} (h : Reaches env s t) :
    FI env t = FI env s ∧ FR env t = FR env s := by
  induction h with
  | refl => exact ⟨rfl, rfl⟩
  | tail _ hbc ih =>
    exact ⟨(FI_FR_step hbc).1.trans ih.1, (FI_FR_step hbc).2.trans ih.2⟩

/-- At a terminal state (empty queue) the read-off values are the
accumulated sets themselves. -/
lemma FI_FR_terminal {env : ClassEnv α} {s : WSt α} (h : s.queue = ∅) :
    FI env s = ↑s.imports ∧ FR env s = ↑s.requirements := by
  constructor <;> simp [FI, FR, ReachFrom, h]

end DepMiner

namespace DepMiner

variable {α : Type} [DecidableEq α]

/-- C2: for every environment and seed state, the pair of sets produced by
the closure walk is invariant to the order in which module names are popped
from the work queue: any two terminating executions of the `while queue`
loop from the same initial state — in particular two runs over an unchanged
source tree — end with identical `imports` and `requirements` sets. -/
theorem c2_pop_order_independent (env : ClassEnv α) (s0 s t : WSt α)
    (hs : Reaches env s0 s) (hsq : s.queue = ∅)
    (ht : Reaches env s0 t) (htq : t.queue = ∅) :
    s.imports = t.imports ∧ s.requirements = t.requirements := by
  have h1 : (↑s.imports : Set α) = ↑t.imports := by
    rw [← (FI_FR_terminal hsq).1, ← (FI_FR_terminal htq).1,
      (FI_FR_reaches hs).1, (FI_FR_reaches ht).1]
  have h2 : (↑s.requirements : Set α) = ↑t.requirements := by
    rw [← (FI_FR_terminal hsq).2, ← (FI_FR_terminal htq).2,
      (FI_FR_reaches hs).2, (FI_FR_reaches ht).2]
  exact ⟨Finset.coe_injective h1, Finset.coe_injective h2⟩

/-- The C3 scenario takes exactly one step: popping `utils.helper`. -/
lemma c3_step : Step envC3 c3s0 c3s1 := by
  refine ⟨"utils.helper", ∅, {"boto3"}, by decide, by decide, by decide⟩

/-- Witness for C2 at the concrete C3 scenario: two terminating runs from
the same seeded state yield the same sets. -/
theorem c2_witness :
    c3s1.imports = c3s1.imports ∧ c3s1.requirements = c3s1.requirements :=
  c2_pop_order_independent envC3 c3s0 c3s1 c3s1
    (Relation.ReflTransGen.single c3_step) rfl
    (Relation.ReflTransGen.single c3_step) rfl

/-- Names contributed to the first component of the `_handle_import` chain
are exactly first-party (the `elif` ladder adds a name to `imports` only in
its `is_first_party` branch). -/
lemma mem_handle_fst {env : ClassEnv α} {a n : α}
    (h : n ∈ (_handle_import env a).1) : env.isFP n = true := by
  unfold _handle_import at h
  split_ifs at h with h1 h2 h3 <;> simp_all

/-- Names contributed to the second component of the `_handle_import` chain
are never first-party (the `is_third_party` branch is only reached when the
`is_first_party` test failed). -/
lemma mem_handle_snd {env : ClassEnv α} {a n : α}
    (h : n ∈ (_handle_import env a).2) : env.isFP n = false := by
  unfold _handle_import at h
  split_ifs at h with h1 h2 h3 <;> simp_all

/-- As `mem_handle_fst`, through the `ImportFrom` wrapper. -/
lemma mem_handle_from_fst {env : ClassEnv α} {mo : Option α} {n : α}
    (h : n ∈ (_handle_import_from env mo).1) : env.isFP n = true := by
  cases mo with
  | none => simp [_handle_import_from] at h
  | some m => exact mem_handle_fst h

/-- As `mem_handle_snd`, through the `ImportFrom` wrapper. -/
lemma mem_handle_from_snd {env : ClassEnv α} {mo : Option α} {n : α}
    (h : n ∈ (_handle_import_from env mo).2) : env.isFP n = false := by
  cases mo with
  | none => simp [_handle_import_from] at h
  | some m => exact mem_handle_snd h

/-- As `mem_handle_fst`, over an alias list. -/
lemma mem_aliases_fst {env : ClassEnv α} {l : List α} {n : α}
    (h : n ∈ (handleAliases env l).1) : env.isFP n = true := by
  induction l with
  | nil => simp [handleAliases] at h
  | cons a rest ih =>
    simp only [handleAliases, Finset.mem_union] at h
    rcases h with h | h
    · exact mem_handle_fst h
    · exact ih h

/-- As `mem_handle_snd`, over an alias list. -/
lemma mem_aliases_snd {env : ClassEnv α} {l : List α} {n : α}
    (h : n ∈ (handleAliases env l).2) : env.isFP n = false := by
  induction l with
  | nil => simp [handleAliases] at h
  | cons a rest ih =>
    simp only [handleAliases, Finset.mem_union] at h
    rcases h with h | h
    · exact mem_handle_snd h
    · exact ih h

/-- Every name in the first set produced for a file is first-party. -/
lemma mem_parseStmts_fst {env : ClassEnv α} {ss : List (Stmt α)} {n : α}
    (h : n ∈ (parseStmts env ss).1) : env.isFP n = true := by
  induction ss with
  | nil => simp [parseStmts] at h
  | cons s rest ih =>
    cases s with
    | impFrom level mo names =>
      simp only [parseStmts, Finset.mem_union] at h
      rcases h with h | h
      · exact ih h
      · exact mem_handle_from_fst h
    | imp names =>
      simp only [parseStmts, Finset.mem_union] at h
      rcases h with h | h
      · exact ih h
      · exact mem_aliases_fst h
    | other => exact ih h

/-- No name in the second set produced for a file is first-party. -/
lemma mem_parseStmts_snd {env : ClassEnv α} {ss : List (Stmt α)} {n : α}
    (h : n ∈ (parseStmts env ss).2) : env.isFP n = false := by
  induction ss with
  | nil => simp [parseStmts] at h
  | cons s rest ih =>
    cases s with
    | impFrom level mo names =>
      simp only [parseStmts, Finset.mem_union] at h
      rcases h with h | h
      · exact ih h
      · exact mem_handle_from_snd h
    | imp names =>
      simp only [parseStmts, Finset.mem_union] at h
      rcases h with h | h
      · exact ih h
      · exact mem_aliases_snd h
    | other => exact ih h

/-- The classification discipline is maintained by the whole walk: every
accumulated import is first-party, no accumulated requirement is. -/
lemma walk_classification_invariant {env : ClassEnv α} {s t : WSt α}
    (h : Reaches env s t)
    (h1 : ∀ n ∈ s.imports, env.isFP n = true)
    (h2 : ∀ n ∈ s.requirements, env.isFP n = false) :
    (∀ n ∈ t.imports, env.isFP n = true) ∧
      (∀ n ∈ t.requirements, env.isFP n = false) := by
  induction h with
  | refl => exact ⟨h1, h2⟩
  | tail _ hbc ih =>
    obtain ⟨m, i, r, hm, hp, rfl⟩ := hbc
    obtain ⟨ss, _, hss⟩ := parseModule_ok hp
    constructor
    · intro n hn
      rcases Finset.mem_union.1 hn with hn | hn
      · exact ih.1 n hn
      · exact mem_parseStmts_fst (by rw [hss]; exact hn)
    · intro n hn
      rcases Finset.mem_union.1 hn with hn | hn
      · exact ih.2 n hn
      · exact mem_parseStmts_snd (by rw [hss]; exact hn)

/-- C4: for every environment, entry file and run of the closure walk, the
accumulated `imports` and `requirements` sets are disjoint — a module name
is never in both sets for the same unit, because the `if/elif` chain
classifies each name into at most one category. -/
theorem c4_sets_disjoint (env : ClassEnv α) (entryStmts : List (Stmt α))
    (s : WSt α) (h : Reaches env (seed env entryStmts) s) :
    s.imports ∩ s.requirements = ∅ := by
  have hinv := walk_classification_invariant h
    (fun n hn => mem_parseStmts_fst hn)
    (fun n hn => mem_parseStmts_snd hn)
  rw [Finset.eq_empty_iff_forall_not_mem]
  intro n hn
  have h1 := hinv.1 n (Finset.mem_of_mem_inter_left hn)
  have h2 := hinv.2 n (Finset.mem_of_mem_inter_right hn)
  rw [h1] at h2
  exact Bool.noConfusion h2

/-- Witness for C4 at the concrete C3 scenario. -/
theorem c4_witness : c3s1.imports ∩ c3s1.requirements = ∅ :=
  c4_sets_disjoint envC3 c3entry c3s1
    (by
      have hseed : seed envC3 c3entry = c3s0 := by decide
      rw [hseed]
      exact Relation.ReflTransGen.single c3_step)

end DepMiner

namespace DepMiner

/-- In the cycle scenario, every loop iteration keeps the queue nonempty and
inside `{a, b}`: popping `a` enqueues `b` and popping `b` enqueues `a`. -/
lemma c1_step_invariant {s t : WSt String} (hst : Step envC1 s t)
    (h1 : s.queue.Nonempty) (h2 : s.queue ⊆ {"a", "b"}) :
    t.queue.Nonempty ∧ t.queue ⊆ {"a", "b"} := by
  obtain ⟨m, i, r, hm, hp, rfl⟩ := hst
  have hmab : m = "a" ∨ m = "b" := by
    have hmem := h2 hm
    simpa using hmem
  rcases hmab with rfl | rfl
  · have hcomp : parseModule envC1 "a" = .ok ({"b"}, ∅) := by decide
    rw [hcomp] at hp
    injection hp with hpair
    obtain ⟨hi, hr⟩ := Prod.mk.injEq .. ▸ hpair
    constructor
    · exact ⟨"b", by rw [← hi]; exact Finset.mem_union_right _ (Finset.mem_singleton_self _)⟩
    · intro x hx
      rcases Finset.mem_union.1 hx with hx | hx
      · exact h2 (Finset.mem_of_mem_erase hx)
      · rw [← hi] at hx
        have : x = "b" := Finset.mem_singleton.1 hx
        simp [this]
  · have hcomp : parseModule envC1 "b" = .ok ({"a"}, ∅) := by decide
    rw [hcomp] at hp
    injection hp with hpair
    obtain ⟨hi, hr⟩ := Prod.mk.injEq .. ▸ hpair
    constructor
    · exact ⟨"a", by rw [← hi]; exact Finset.mem_union_right _ (Finset.mem_singleton_self _)⟩
    · intro x hx
      rcases Finset.mem_union.1 hx with hx | hx
      · exact h2 (Finset.mem_of_mem_erase hx)
      · rw [← hi] at hx
        have : x = "a" := Finset.mem_singleton.1 hx
        simp [this]

/-- The cycle invariant holds at every state reachable from the seed. -/
lemma c1_reach_invariant {s : WSt String} (h : Reaches envC1 c1s0 s) :
    s.queue.Nonempty ∧ s.queue ⊆ {"a", "b"} := by
  induction h with
  | refl => exact ⟨⟨"a", by decide⟩, by decide⟩
  | tail _ hbc ih => exact c1_step_invariant hbc ih.1 ih.2

/-- C1 fails on the code: in the two-module cycle (`a.py` is `import b`,
`b.py` is `import a`, entry `import a`), the queue of the `while queue` loop
is nonempty at every reachable state, so the loop never terminates; and the
loop re-enqueues a name already in `imports` (`queue |= __imports` has no
check against `imports`): after popping `a` then `b`, the name `a` is back
on the queue while already in `imports`.  The seeding of the scenario is
`seed envC1 c1entry = c1s0`. -/
theorem c1_cycle_nonterminating :
    (∀ s : WSt String, Reaches envC1 c1s0 s → s.queue ≠ ∅) ∧
    seed envC1 c1entry = c1s0 ∧
    Reaches envC1 c1s0 c1s1 ∧ Step envC1 c1s1 c1s2 ∧
    "a" ∈ c1s1.imports ∧ "a" ∉ c1s1.queue ∧ "a" ∈ c1s2.queue := by
  refine ⟨?_, by decide, ?_, ?_, by decide, by decide, by decide⟩
  · intro s hs
    exact Finset.nonempty_iff_ne_empty.1 (c1_reach_invariant hs).1
  · refine Relation.ReflTransGen.single ⟨"a", {"b"}, ∅, by decide, by decide, ?_⟩
    simp only [c1s0, c1s1, WSt.mk.injEq]
    exact ⟨by decide, by decide, by decide⟩
  · refine ⟨"b", {"a"}, ∅, by decide, by decide, ?_⟩
    simp only [c1s1, c1s2, WSt.mk.injEq]
    exact ⟨by decide, by decide, by decide⟩

/-- Witness for C1: the first conjunct applied at the seeded state itself. -/
theorem c1_witness : c1s0.queue ≠ ∅ :=
  c1_cycle_nonterminating.1 c1s0 Relation.ReflTransGen.refl

/-- The only states the C3 scenario's walk can reach are the seeded state
and the one-step terminal state. -/
lemma c3_states {s : WSt String} (h : Reaches envC3 c3s0 s) :
    s = c3s0 ∨ s = c3s1 := by
  induction h with
  | refl => exact Or.inl rfl
  | tail _ hbc ih =>
    rcases ih with rfl | rfl
    · obtain ⟨m, i, r, hm, hp, rfl⟩ := hbc
      have hmu : m = "utils.helper" := by
        have hq : (c3s0.queue : Finset String) = {"utils.helper"} := by decide
        rw [hq] at hm
        exact Finset.mem_singleton.1 hm
      subst hmu
      have hcomp : parseModule envC3 "utils.helper" = .ok (∅, {"boto3"}) := by decide
      rw [hcomp] at hp
      injection hp with hpair
      obtain ⟨hi, hr⟩ := Prod.mk.injEq .. ▸ hpair
      subst hi; subst hr
      exact Or.inr (by decide)
    · obtain ⟨m, _, _, hm, _, _⟩ := hbc
      have hq : (c3s1.queue : Finset String) = ∅ := by decide
      rw [hq] at hm
      exact absurd hm (Finset.not_mem_empty m)

/-- C3: in the spec scenario (entry imports `os`, `requests` and
`utils.helper`; `utils.helper` imports `json` and `boto3`), every
terminating run of the closure walk ends with
`ImportSet = {utils.helper}` and `RequirementSet = {requests, boto3}`,
and no name classified standard-library is in either set. -/
theorem c3_scenario (s : WSt String)
    (h : Reaches envC3 (seed envC3 c3entry) s) (hq : s.queue = ∅) :
    s.imports = {"utils.helper"} ∧ s.requirements = {"requests", "boto3"} ∧
      ∀ m, envC3.isStd m = true → m ∉ s.imports ∧ m ∉ s.requirements := by
  have hseed : seed envC3 c3entry = c3s0 := by decide
  rw [hseed] at h
  rcases c3_states h with rfl | rfl
  · exact absurd hq (by decide)
  · refine ⟨by decide, by decide, ?_⟩
    intro m hstd
    have : m = "os" ∨ m = "json" := by
      simpa [envC3] using hstd
    rcases this with rfl | rfl
    · exact ⟨by decide, by decide⟩
    · exact ⟨by decide, by decide⟩

/-- Witness for C3: the explicit two-state run reaching the terminal state. -/
theorem c3_witness :
    c3s1.imports = {"utils.helper"} ∧ c3s1.requirements = {"requests", "boto3"} ∧
      ∀ m, envC3.isStd m = true → m ∉ c3s1.imports ∧ m ∉ c3s1.requirements :=
  c3_scenario c3s1
    (by
      have hseed : seed envC3 c3entry = c3s0 := by decide
      rw [hseed]
      exact Relation.ReflTransGen.single c3_step)
    rfl

end DepMiner

namespace DepMiner

/-- C5 fails on the code: when the queued first-party module `m` has no
source file, the walk fails with the generic `FileNotFoundError` raised by
`open` (there is no `MissingDependencyError` in the script — the error type
`Err` mirrors the only exceptions the script can raise — and the error does
not name the unit being processed). -/
theorem c5_counterexample :
    processUnit envC5 9 "lam" c5entry = some (.error (.fileNotFound "m")) := by
  decide

/-- C5 amended: the generic file-not-found error aborts the whole unit loop.
Results of units completed before the failure (`ok1`) are kept; the failing
unit and units later in the listing (`later`) produce nothing. -/
theorem c5_amended_run :
    gatherUnitsL envC5 9 c5units =
      some ([("ok1", [], [])], some (.fileNotFound "m")) := by
  decide

/-- C6 fails on the code: a syntactically invalid entry file (`bad`) raises
a parse error that aborts the entire gather run — the healthy unit `good`
listed after it is never attempted, although processing it alone succeeds. -/
theorem c6_counterexample :
    processUnit envC6 9 "good" (.valid []) = some (.ok ([], [])) ∧
    gatherUnitsL envC6 9 c6units = some ([], some (.parseError "bad")) :=
  ⟨by decide, by decide⟩

/-- C6 amended: a parse failure in any unit is fatal for the whole run:
the exception propagates out of the unit loop, so no unit listed after the
failing one is attempted, while units completed earlier keep their results. -/
theorem c6_amended_abort (env : ClassEnv String) (fuel : Nat) (name : String)
    (f : PyFile String) (rest : List (String × Option (PyFile String)))
    (e : Err String) (h : processUnit env fuel name f = some (.error e)) :
    gatherUnitsL env fuel ((name, some f) :: rest) = some ([], some e) := by
  unfold gatherUnitsL
  rw [h]

/-- Witness for the amended C6 at the concrete scenario. -/
theorem c6_amended_witness :
    gatherUnitsL envC6 9 c6units = some ([], some (.parseError "bad")) :=
  c6_amended_abort envC6 9 "bad" .invalid [("good", some (.valid []))]
    (.parseError "bad") (by decide)

/-- C7 fails on the code: `is_third_party` does not return a boolean for
every input.  For an importable module with no `__file__` attribute (a
namespace package such as `nspkg`), `module.__file__.startswith(...)` raises
`AttributeError`, which the `except ImportError` handler does not catch —
contradicting the function's own docstring ("Returns False if module cannot
be imported or has no file path").  The whole classification chain then
raises instead of classifying the name `Unknown`. -/
theorem c7_counterexample :
    is_third_party envNS sitePkgPaths "nspkg" = .error .attributeError ∧
    classifyName envNS [] sitePkgPaths "/proj" "nspkg" = .error .attributeError :=
  ⟨by decide, by decide⟩

/-- C8 fails on the code: a relative from-import with a nonempty module
part (`from .sub import x`, i.e. `level = 1`, `module = "sub"`) does not
yield "no name" — `_handle_import_from` never consults the level, so the
name `sub` is classified as if it were an absolute top-level import and
lands in the unit's import set when a first-party module `sub` exists. -/
theorem c8_counterexample :
    parseStmts envC8 [Stmt.impFrom 1 (some "sub") ["x"]] = ({"sub"}, ∅) := by
  decide

/-- C8 amended: for a `from X import a, b` statement the extracted name is
`X` itself, never the aliases (the result does not depend on the alias list
nor on the level); a from-import whose module part is empty (`from . import
x`, `module = None`) yields no name at all.  A relative from-import with a
nonempty module part is treated exactly like an absolute import of that
name. -/
theorem c8_amended_extraction (env : ClassEnv String) (level : Nat)
    (X : String) (ns : List String) :
    parseStmts env [Stmt.impFrom level (some X) ns] = _handle_import env X ∧
    parseStmts env [Stmt.impFrom level none ns] = (∅, ∅) := by
  constructor
  · simp [parseStmts, _handle_import_from]
  · simp [parseStmts, _handle_import_from]

/-- C9 fails on the code: for every namespace package the first-party test
returns `false` regardless of its search-path roots.  `is_namespace_package`
is true only for modules with no `__file__` attribute, but `is_first_party`
already returned `false` at its `module_file is None` guard for exactly
those modules, so the namespace-package branch (line 186) is unreachable. -/
theorem c9_namespace_always_false (env : PyEnv) (name cur : String)
    (h : is_namespace_package env name = true) :
    is_first_party env name cur = false := by
  unfold is_namespace_package at h
  cases him : env.importMod name with
  | none => simp [is_first_party, him]
  | some m =>
    rw [him] at h
    have h' := h
    simp only [Bool.and_eq_true, Option.isNone_iff_eq_none] at h'
    simp [is_first_party, him, h'.2]

/-- Witness for C9: `nspkg` is a namespace package whose only search root
`/proj/nspkg` lies under the project root `/proj` (so the claim would
demand `true`), yet the first-party test returns `false`. -/
theorem c9_witness :
    is_namespace_package envNS "nspkg" = true ∧
    pyStartsWith "/proj/nspkg" "/proj" = true ∧
    is_first_party envNS "nspkg" "/proj" = false :=
  ⟨by decide, by decide, c9_namespace_always_false envNS "nspkg" "/proj" (by decide)⟩

/-- C10: the standard-library test is a string-prefix check against the
directory containing the interpreter's `os` module: any module whose spec
origin starts with `dirname(os.__file__)` is classified standard-library,
and the `if/elif` chain then contributes it to neither output set whatever
the first-party and third-party tests would say (standard-library takes
precedence over third-party). -/
theorem c10_stdlib_path_check (env : PyEnv)
    (std_lib_modules package_paths : List String) (current_dir name p : String)
    (h1 : env.findSpec name = some (some p))
    (h2 : pyStartsWith p (dirnameStr env.osFile) = true) :
    is_standard_lib env std_lib_modules name = true ∧
    classifyName env std_lib_modules package_paths current_dir name = .ok .std ∧
    ∀ (fp tp : String → Bool) (files : String → Option (PyFile String)),
      _handle_import ⟨fun n => is_standard_lib env std_lib_modules n, fp, tp, files⟩
        name = (∅, ∅) := by
  have hstd : is_standard_lib env std_lib_modules name = true := by
    unfold is_standard_lib
    split
    · rfl
    · rw [h1]
      exact h2
  refine ⟨hstd, ?_, ?_⟩
  · unfold classifyName
    rw [hstd]
    simp
  · intro fp tp files
    unfold _handle_import
    simp [hstd]

/-- Witness for C10: `requests` resolves into `site-packages`, a
subdirectory of the directory containing the `os` module, so it is
classified standard-library and excluded from both sets even for
classifiers that would call it first-party or third-party. -/
theorem c10_witness :
    is_standard_lib env10 [] "requests" = true ∧
    classifyName env10 [] sitePkgPaths "/proj" "requests" = .ok .std ∧
    ∀ (fp tp : String → Bool) (files : String → Option (PyFile String)),
      _handle_import ⟨fun n => is_standard_lib env10 [] n, fp, tp, files⟩
        "requests" = (∅, ∅) :=
  c10_stdlib_path_check env10 [] sitePkgPaths "/proj" "requests"
    "/usr/lib/python3.11/site-packages/requests/start.py" (by decide) (by decide)

end DepMiner

namespace DepMiner

/-- Witness for the amended C8 at a concrete statement. -/
theorem c8_amended_witness :
    parseStmts envC8 [Stmt.impFrom 1 (some "sub") ["x", "y"]] =
      _handle_import envC8 "sub" ∧
    parseStmts envC8 [Stmt.impFrom 1 none ["x", "y"]] = (∅, ∅) :=
  c8_amended_extraction envC8 1 "sub" ["x", "y"]

end DepMiner
